import Mathlib

/-!
Shallow embedding of the sinsacord node-orchestration core, translated from
src/structures/Manager.ts and src/structures/Player.ts.

Conventions of the embedding:
* The mutable object graph (Manager registries, Player objects, Node objects)
  is flattened into one explicit `World` record; every method of the source
  becomes a function `World -> args -> World` (or `Except String World` when
  the source method can throw).
* A Player is addressed by its guild id (the key of `Manager#players`); a Node
  by its identifier (the key of `Manager#nodes`).
* `Node#send` is the observable sink: the fire-and-forget operations a Player
  dispatches are accumulated, in order, in `World.sent` as
  (node identifier, operation) pairs.  `ManagerOptions#send` (the gateway
  transport) accumulates in `World.gateway`; emitted domain events in
  `World.events`.
* JavaScript numbers that only ever hold integers (volume, calls, stop count)
  are model-led as `Int`/`Nat`; equalizer gains and CPU load figures, which are
  only stored, copied and compared (never rounded), are `Rat`.
-/

/-- A voice-server update object `{ guild_id, token, endpoint }`.  The source
stores the whole update object verbatim in `player.voiceState.event`
(Manager.ts line 438). -/
structure ServerUpdate where
  guild_id : String
  token : String
  endpoint : String
deriving DecidableEq

/-- The per-Player `voiceState` record.  In the source it is a plain JS object;
the `REQUIRED_KEYS = ["event", "guildId", "op", "sessionId"]` check
(Manager.ts line 21, line 456) tests key *presence*, so each key is an
`Option`: `some` means the key is present on the object. -/
structure VoiceState where
  op : Option String
  guildId : Option String
  event : Option ServerUpdate
  sessionId : Option String
deriving DecidableEq

/-- `player.voiceState = Object.assign({})` (Manager.ts line 452): an empty
object with none of the required keys. -/
def emptyVoiceState : VoiceState :=
  { op := none, guildId := none, event := none, sessionId := none }

/-- `REQUIRED_KEYS.every((k) => k in player.voiceState)` (Manager.ts line 456). -/
def requiredKeysPresent (vs : VoiceState) : Bool :=
  vs.event.isSome && vs.guildId.isSome && vs.op.isSome && vs.sessionId.isSome

/-- A resolved track; only the fields the modelled operations read.  `track` is
the opaque encoded handle sent in a play operation (Player.ts line 284). -/
structure Track where
  track : String
  title : String
  duration : Int
deriving DecidableEq

/-- Modelled from the spec: `Queue` (src file Queue.ts is not under src/).
Spec section 3: an ordered pending sequence plus `current` and `previous`
slots; `totalSize` = length of the pending sequence + (1 if `current` is set
else 0); the pending sequence is an array, so `queue.length` is its length and
`queue.splice(0, k)` removes its first `k` entries. -/
structure Queue where
  current : Option Track
  previous : Option Track
  pending : List Track
deriving DecidableEq

/-- Modelled from the spec: `queue.totalSize` (spec section 3). -/
def Queue.totalSize (q : Queue) : Nat :=
  q.pending.length + (if q.current.isSome then 1 else 0)

/-- One registered Node, restricted to the fields the Manager selection
queries read: `connected`, `calls`, and `stats.cpu` (systemLoad, cores) which
is absent until the first stats telemetry arrives. -/
structure NodeSt where
  identifier : String
  connected : Bool
  calls : Nat
  cpu : Option (Rat × Rat)
deriving DecidableEq

/-- An operation written to a Node over its persistent channel
(`player.node.send(...)` in Player.ts / Manager.ts).  The `equalizer` payload
carries `this.bands.map((gain, band) => ({band, gain}))`, i.e. every slot of
the gain array paired with its index (holes of the JS array are `none`). -/
inductive Op where
  | play (guildId : String) (track : String)
  | volume (guildId : String) (volume : Int)
  | equalizer (guildId : String) (bands : List (Nat × Option Rat))
  | stop (guildId : String)
  | pause (guildId : String) (pause : Bool)
  | voiceUpdate (vs : VoiceState)
deriving DecidableEq

/-- One gateway dispatch issued through `this.manager.options.send`
(Player.ts lines 167 and 186): the `d` payload of the op-4 packet. -/
structure GatewayPacket where
  guild_id : String
  channel_id : Option String
  self_mute : Bool
  self_deaf : Bool
deriving DecidableEq

/-- Domain events emitted by the Manager that the modelled code paths reach. -/
inductive DomainEvent where
  | playerCreate (guild : String)
  | playerMove (guild : String) (oldChannel : Option String) (newChannel : String)
  | playerDisconnect (guild : String) (oldChannel : Option String)
deriving DecidableEq

/-- One Player (Session): the fields of the Player class that the modelled
operations read or write.  `node` is the identifier of the assigned Node;
`bands` is the 15-slot gain array (a JS array, so a slot can be a hole:
`none`). -/
structure Player where
  guild : String
  node : String
  voiceChannel : Option String
  textChannel : Option String
  volume : Int
  bands : List (Option Rat)
  trackRepeat : Bool
  queueRepeat : Bool
  playing : Bool
  paused : Bool
  state : String
  selfMute : Bool
  selfDeafen : Bool
  queue : Queue
  voiceState : VoiceState
deriving DecidableEq

/-- Association-list get, mirroring `Collection#get` (a JS Map keyed by
string). -/
def getAssoc {α : Type} : List (String × α) → String → Option α
  | [], _ => none
  | (k, v) :: t, k2 => if k = k2 then some v else getAssoc t k2

/-- Association-list set, mirroring `Collection#set`: replace the value at an
existing key, else append. -/
def setAssoc {α : Type} : List (String × α) → String → α → List (String × α)
  | [], k, v => [(k, v)]
  | (k0, v0) :: t, k, v =>
      if k0 = k then (k, v) :: t else (k0, v0) :: setAssoc t k v

/-- The whole mutable state: the Manager registries plus the observable
outputs (node operations, gateway packets, emitted events). -/
structure World where
  clientId : String
  players : List (String × Player)
  nodes : List (String × NodeSt)
  sent : List (String × Op)
  gateway : List GatewayPacket
  events : List DomainEvent
deriving DecidableEq

def World.getPlayer (w : World) (g : String) : Option Player :=
  getAssoc w.players g

def World.putPlayer (w : World) (g : String) (p : Player) : World :=
  { w with players := setAssoc w.players g p }

/-- `node.send(op)`: append the operation to the node transcript. -/
def World.send (w : World) (nodeId : String) (o : Op) : World :=
  { w with sent := w.sent ++ [(nodeId, o)] }

def World.emit (w : World) (e : DomainEvent) : World :=
  { w with events := w.events ++ [e] }

/-- Stable insertion into a sorted list: `x` goes before the first element `y`
with `le x y`.  Together with `stableSort` this mirrors the stable
`Array.prototype.sort` used by `Collection#sort`. -/
def insSorted {α : Type} (le : α → α → Bool) (x : α) : List α → List α
  | [] => [x]
  | y :: ys => if le x y then x :: y :: ys else y :: insSorted le x ys

/-- Stable sort (insertion sort).  `le a b = true` means `a` may come before
`b`; ties keep their original relative order, as in the JS runtime. -/
def stableSort {α : Type} (le : α → α → Bool) : List α → List α
  | [] => []
  | x :: xs => insSorted le x (stableSort le xs)

/-- `Manager#leastUsedNode` (Manager.ts lines 214-217): filter to connected
nodes, then `sort((a, b) => b.calls - a.calls)`.  The JS comparator puts `a`
before `b` iff `b.calls - a.calls < 0`, i.e. iff `a.calls > b.calls`, so the
result is ordered by *descending* `calls` (ties stable). -/
def Manager.leastUsedNode (w : World) : List NodeSt :=
  stableSort (fun a b => decide (b.calls ≤ a.calls))
    ((w.nodes.map Prod.snd).filter (fun n => n.connected))

/-- The load figure of `Manager#leastLoadNodes`: `(systemLoad / cores) * 100`
when `stats.cpu` is present, else 0 (Manager.ts lines 222-229). -/
def nodeLoad (n : NodeSt) : Rat :=
  match n.cpu with
  | some (systemLoad, cores) => systemLoad / cores * 100
  | none => 0

/-- `Manager#leastLoadNodes` (Manager.ts lines 219-231): filter to connected
nodes, then sort ascending by load (`aload - bload` comparator). -/
def Manager.leastLoadNodes (w : World) : List NodeSt :=
  stableSort (fun a b => decide (nodeLoad a ≤ nodeLoad b))
    ((w.nodes.map Prod.snd).filter (fun n => n.connected))

/-- `Player#pause` (Player.ts lines 357-369).  The argument is a `Bool`, so
the typeof guard never throws in the model.  No-op when the requested state
equals the current one or the queue is empty; otherwise flips the flags and
sends a pause operation. -/
def Player.pause (w : World) (g : String) (pauseArg : Bool) : World :=
  match w.getPlayer g with
  | none => w
  | some p =>
      if p.paused = pauseArg || p.queue.totalSize = 0 then w
      else
        ((w.putPlayer g { p with playing := !pauseArg, paused := pauseArg }).send
          p.node (Op.pause g pauseArg))

/-- The two inbound gateway event shapes accepted by
`Manager#updateVoiceState` after the `"t"` filter and the `"d"` unwrap
(Manager.ts lines 429-432): a voice-server update (has `token`) or a
voice-state update (has `session_id`, and a nullable `channel_id`). -/
inductive VoiceEvt where
  | server (guild_id token endpoint : String)
  | state (guild_id user_id session_id : String) (channel_id : Option String)
deriving DecidableEq

/-- The tail of the voice-state branch of `Manager#updateVoiceState`
(Manager.ts lines 456-458): re-read the (just mutated) Player and, when all
REQUIRED_KEYS are present on its voiceState, send the assembled record as one
operation to its Node. -/
def dispatchIfComplete (w : World) (g : String) : World :=
  match w.getPlayer g with
  | some p2 =>
      if requiredKeysPresent p2.voiceState then
        w.send p2.node (Op.voiceUpdate p2.voiceState)
      else w
  | none => w

/-- `Manager#updateVoiceState` (Manager.ts lines 428-460).  Note the shape of
the source: the `REQUIRED_KEYS` completeness check and the merged
`player.node.send(player.voiceState)` dispatch sit *inside* the voice-state
(`else`) branch, lines 456-458 - they do not run after a voice-server
fragment. -/
def Manager.updateVoiceState (w : World) (e : VoiceEvt) : World :=
  match e with
  | VoiceEvt.server g token endpoint =>
      match w.getPlayer g with
      | none => w
      | some p =>
          w.putPlayer g
            { p with voiceState :=
                { p.voiceState with event := some ⟨g, token, endpoint⟩ } }
  | VoiceEvt.state g uid sid cid =>
      match w.getPlayer g with
      | none => w
      | some p =>
          if uid ≠ w.clientId then w
          else
            let w2 :=
              match cid with
              | some c =>
                  let w1 :=
                    if p.voiceChannel ≠ some c then
                      w.emit (DomainEvent.playerMove g p.voiceChannel c)
                    else w
                  w1.putPlayer g
                    { p with
                        voiceState := { p.voiceState with sessionId := some sid },
                        voiceChannel := some c }
              | none =>
                  let w1 := w.emit (DomainEvent.playerDisconnect g p.voiceChannel)
                  let w1 := w1.putPlayer g
                    { p with voiceChannel := none, voiceState := emptyVoiceState }
                  Player.pause w1 g true
            dispatchIfComplete w2 g

/-- Count of merged voice-update operations in a node transcript. -/
def countVoiceUpdates (l : List (String × Op)) : Nat :=
  (l.filter (fun x =>
    match x.2 with
    | Op.voiceUpdate _ => true
    | _ => false)).length

/-- A fresh Player as the constructor leaves its voiceState
(Player.ts line 100): `{ op: "voiceUpdate", guildId: options.guild }`. -/
def freshVoiceState (g : String) : VoiceState :=
  { op := some "voiceUpdate", guildId := some g, event := none, sessionId := none }

/- Concrete scenario for claim C1: one player for guild "123" (bot client id
"999", voice channel "55") assigned to connected node "n1", both voice
fragments still missing. -/

def c1Player : Player :=
  { guild := "123", node := "n1", voiceChannel := some "55",
    textChannel := none, volume := 100,
    bands := List.replicate 15 (some 0),
    trackRepeat := false, queueRepeat := false,
    playing := false, paused := false, state := "CONNECTED",
    selfMute := false, selfDeafen := false,
    queue := { current := none, previous := none, pending := [] },
    voiceState := freshVoiceState "123" }

def c1World : World :=
  { clientId := "999",
    players := [("123", c1Player)],
    nodes := [("n1", { identifier := "n1", connected := true, calls := 0, cpu := none })],
    sent := [], gateway := [], events := [] }

/-- Claim C1: the voice-credential merge is NOT order-independent.  Delivering
the server fragment (token+endpoint) and then the matching state fragment
(session id, bot user id) sends exactly one merged voice-update operation;
delivering the same two fragments in the opposite order sends zero, because
the required-keys check of Manager.ts line 456 runs only in the voice-state
branch.  This evaluates the embedded code at the failing input of the claim. -/
theorem c1_voice_merge_order_dependent :
    countVoiceUpdates
      ((Manager.updateVoiceState
        (Manager.updateVoiceState c1World (VoiceEvt.server "123" "tok" "endp"))
        (VoiceEvt.state "123" "999" "sess" (some "55"))).sent) = 1
    ∧
    countVoiceUpdates
      ((Manager.updateVoiceState
        (Manager.updateVoiceState c1World (VoiceEvt.state "123" "999" "sess" (some "55")))
        (VoiceEvt.server "123" "tok" "endp")).sent) = 0 := by
  constructor
  · rfl
  · rfl

/- Concrete scenario for claim C2: two connected nodes, "a" with 1 call and
"b" with 5 calls. -/

def c2NodeA : NodeSt := { identifier := "a", connected := true, calls := 1, cpu := none }

def c2NodeB : NodeSt := { identifier := "b", connected := true, calls := 5, cpu := none }

def c2World : World :=
  { clientId := "1", players := [],
    nodes := [("a", c2NodeA), ("b", c2NodeB)],
    sent := [], gateway := [], events := [] }

/-- Claim C2: `leastUsedNode` does NOT order connected nodes by ascending
calls.  With connected nodes of 1 and 5 calls, the first element taken by a
caller is the node with 5 calls (the most-called one): the comparator
`(a, b) => b.calls - a.calls` of Manager.ts line 216 sorts descending.  This
evaluates the embedded code at the failing input of the claim. -/
theorem c2_least_used_first_is_most_called :
    (Manager.leastUsedNode c2World).head? = some c2NodeB
    ∧ c2NodeB.calls = 5 ∧ c2NodeA.calls = 1 ∧ c2NodeA.calls < c2NodeB.calls := by
  refine ⟨rfl, rfl, rfl, ?_⟩
  decide

/-- `Player#setVolume` (Player.ts lines 298-308): clamp to [0, 1000] via
`Math.max(Math.min(volume, 1000), 0)`, store, send a volume operation.  The
argument is an `Int`, so the `isNaN` guard never throws in the model. -/
def Player.setVolume (w : World) (g : String) (volume : Int) : World :=
  match w.getPlayer g with
  | none => w
  | some p =>
      let v := max (min volume 1000) 0
      ((w.putPlayer g { p with volume := v }).send p.node (Op.volume g v))

/-- One band argument object of `Player#setEQ`.  A JS object: `fields` is its
key list (insertion order, duplicate-free in a real object), and `band`/`gain`
are the values destructured from it.  The destructured values are only read
after the key-shape validation has passed. -/
structure EqualizerBand where
  fields : List String
  band : Nat
  gain : Rat
deriving DecidableEq

/-- Lexicographic code-point comparison of two character lists: the order the
default JS `Array.prototype.sort` comparator applies to strings. -/
def charsLe : List Char → List Char → Bool
  | [], _ => true
  | _ :: _, [] => false
  | a :: as, b :: bs =>
      if a.toNat < b.toNat then true
      else if b.toNat < a.toNat then false
      else charsLe as bs

/-- JS default string comparison, as a boolean relation on Lean strings. -/
def strLe (a b : String) : Bool := charsLe a.data b.data

/-- `Object.keys(band).sort()`: the default JS sort compares strings. -/
def sortStrings (l : List String) : List String :=
  stableSort strLe l

/-- The per-band validation of Player.ts line 138:
`JSON.stringify(Object.keys(band).sort()) === String(["band","gain"])`, i.e.
the sorted key list is exactly ["band", "gain"]. -/
def validBand (b : EqualizerBand) : Bool :=
  sortStrings b.fields == ["band", "gain"]

/-- JS array element assignment `arr[i] = v` on an array of length
`arr.length`: in-range assignment replaces the slot; out-of-range assignment
extends the array with holes (`none`) up to index `i`. -/
def jsArraySet (l : List (Option Rat)) (i : Nat) (v : Rat) : List (Option Rat) :=
  if i < l.length then l.set i (some v)
  else l ++ List.replicate (i - l.length) none ++ [some v]

/-- The merge loop of Player.ts line 140:
`for (const { band, gain } of bands) this.bands[band] = gain`. -/
def mergeBands (arr : List (Option Rat)) (bs : List EqualizerBand) : List (Option Rat) :=
  bs.foldl (fun acc b => jsArraySet acc b.band b.gain) arr

/-- `Player#setEQ` (Player.ts lines 136-149).  The model takes the flat band
list (the `Array.isArray(bands[0])` unwrap of line 137 only flattens an
array-style call).  Validation: non-empty and every band object has exactly
the keys band and gain, else a RangeError is thrown.  Then every band is
merged into `this.bands` by plain array assignment (no range check), and the
full gain array is sent as an equalizer operation. -/
def Player.setEQ (w : World) (g : String) (bands : List EqualizerBand) :
    Except String World :=
  match w.getPlayer g with
  | none => Except.error "player not found"
  | some p =>
      if bands.isEmpty || !(bands.all validBand) then
        Except.error "Bands must be a non-empty object array containing band and gain properties."
      else
        let newBands := mergeBands p.bands bands
        Except.ok (((w.putPlayer g { p with bands := newBands }).send
          p.node (Op.equalizer g newBands.enum)))

/-- `Player#clearEQ` (Player.ts lines 151-161): reset to 15 zero gains and
send the same equalizer shape. -/
def Player.clearEQ (w : World) (g : String) : Except String World :=
  match w.getPlayer g with
  | none => Except.error "player not found"
  | some p =>
      let newBands : List (Option Rat) := List.replicate 15 (some 0)
      Except.ok (((w.putPlayer g { p with bands := newBands }).send
        p.node (Op.equalizer g newBands.enum)))

/-- `Player#setTrackRepeat` (Player.ts lines 313-324).  The argument is a
`Bool`, so the typeof guard never throws in the model. -/
def Player.setTrackRepeat (p : Player) (repeatArg : Bool) : Player :=
  match repeatArg with
  | true => { p with trackRepeat := true, queueRepeat := false }
  | false => { p with trackRepeat := false, queueRepeat := false }

/-- `Player#setQueueRepeat` (Player.ts lines 329-340). -/
def Player.setQueueRepeat (p : Player) (repeatArg : Bool) : Player :=
  match repeatArg with
  | true => { p with trackRepeat := false, queueRepeat := true }
  | false => { p with trackRepeat := false, queueRepeat := false }

/-- `Player#stop` (Player.ts lines 342-352): when a numeric count above 1 is
given, first fail if it exceeds the queue length, else drop the first
`count - 1` pending entries; in every non-failing case send a stop
operation. -/
def Player.stop (w : World) (g : String) (amount : Option Int) :
    Except String World :=
  match w.getPlayer g with
  | none => Except.error "player not found"
  | some p =>
      match amount with
      | some n =>
          if 1 < n then
            if (p.queue.pending.length : Int) < n then
              Except.error "Cannot skip more than the queue length."
            else
              let p2 := { p with queue :=
                { p.queue with pending := p.queue.pending.drop (n - 1).toNat } }
              Except.ok (((w.putPlayer g p2).send p.node (Op.stop g)))
          else Except.ok (w.send p.node (Op.stop g))
      | none => Except.ok (w.send p.node (Op.stop g))

/-- `Player#connect` (Player.ts lines 163-179): requires a voice channel id,
passes through CONNECTING, dispatches the op-4 join packet through the
caller-supplied transport, and ends CONNECTED without waiting for any
acknowledgement. -/
def Player.connect (w : World) (g : String) : Except String World :=
  match w.getPlayer g with
  | none => Except.error "player not found"
  | some p =>
      match p.voiceChannel with
      | none => Except.error "Voice channel ID not set."
      | some vc =>
          Except.ok
            { (w.putPlayer g { p with state := "CONNECTED" }) with
                gateway := w.gateway ++ [⟨g, some vc, p.selfMute, p.selfDeafen⟩] }

/-- `Player#play` (Player.ts lines 254-293), restricted to resolved tracks:
`TrackUtils.validate` (Utils.ts, not under src/) holds for every resolved
`Track` value, and the UnresolvedTrack resolution branch of lines 272-280 is
never entered for them.  A given track pushes the old current into previous
and becomes current; with no argument the existing current must be set or the
call fails; the play operation carries the guild id and the track handle
(`finalOptions` is empty for a plain track call). -/
def Player.play (w : World) (g : String) (trackArg : Option Track) :
    Except String World :=
  match w.getPlayer g with
  | none => Except.error "player not found"
  | some p =>
      let q :=
        match trackArg with
        | some t =>
            { p.queue with
                previous := if p.queue.current.isSome then p.queue.current
                            else p.queue.previous,
                current := some t }
        | none => p.queue
      match q.current with
      | none => Except.error "No current track."
      | some cur =>
          Except.ok (((w.putPlayer g { p with queue := q }).send
            p.node (Op.play g cur.track)))

/-- The PlayerOptions object (Player.ts lines 394-402). -/
structure PlayerOptions where
  guild : String
  textChannel : Option String
  voiceChannel : Option String
  node : Option String
  volume : Option Int
  selfMute : Option Bool
  selfDeafen : Option Bool
deriving DecidableEq

/-- The regex test `/^\d+$/.test(s)`: non-empty and all digits. -/
def digitString (s : String) : Bool :=
  decide (s.length ≠ 0) && s.data.all Char.isDigit

/-- The `check(options)` validation of Player.ts lines 6-44 for the modelled
fields: the guild id must be a digit string, and the channel ids must be digit
strings when provided. -/
def checkPlayerOptions (o : PlayerOptions) : Bool :=
  digitString o.guild
  && (match o.textChannel with | some t => digitString t | none => true)
  && (match o.voiceChannel with | some v => digitString v | none => true)

/-- The node assignment of the Player constructor (Player.ts lines 105-106):
`this.manager.nodes.get(options.node)` when that hits a registered node
(connected or not), else the first of `leastLoadNodes`. -/
def assignedNode (w : World) (o : PlayerOptions) : Option NodeSt :=
  match o.node.bind (getAssoc w.nodes) with
  | some n => some n
  | none => (Manager.leastLoadNodes w).head?

/-- The gain value 0.15 of the constructor bands, as the normalized rational
3/20 (written structurally so that kernel evaluation never needs `Nat.gcd`). -/
def gain015 : Rat := { num := 3, den := 20, den_nz := by decide, reduced := by norm_num }

/-- The four band objects built by the Player constructor
(Player.ts lines 113-117): `{ band: i, gain: 0.15 }` for i = 0..3. -/
def ctorBands : List EqualizerBand :=
  (List.range 4).map (fun i => { fields := ["band", "gain"], band := i, gain := gain015 })

/-- The Player record as the constructor sets its fields before `setVolume`
and `setEQ` run (Player.ts lines 48-110): fresh flags and queue, 15 zero
gains, the voiceState pre-seeded with op and guildId, and the assigned node.
The `volume := 0` is the undefined TS field before `setVolume` runs; it is
never observable because `setVolume` always runs in the constructor. -/
def ctorFreshPlayer (o : PlayerOptions) (nd : NodeSt) : Player :=
  { guild := o.guild, node := nd.identifier,
    voiceChannel := o.voiceChannel, textChannel := o.textChannel,
    volume := 0,
    bands := List.replicate 15 (some 0),
    trackRepeat := false, queueRepeat := false,
    playing := false, paused := false, state := "DISCONNECTED",
    selfMute := o.selfMute.getD false,
    selfDeafen := o.selfDeafen.getD false,
    queue := { current := none, previous := none, pending := [] },
    voiceState := freshVoiceState o.guild }

/-- `Manager#create` (Manager.ts lines 387-393) together with the Player
constructor it delegates to (Player.ts lines 90-119).  An existing guild id
returns the registered Player with no side effect (both the Manager and the
constructor check this first).  Otherwise: validate options, resolve the
assigned node (failing with "No available nodes." when none resolves),
register the fresh Player, emit playerCreate, then run `setVolume(options
volume or 100)` and `setEQ` with the four 0.15 bands - in that order. -/
def Manager.create (w : World) (o : PlayerOptions) :
    Except String (World × Player) :=
  match w.getPlayer o.guild with
  | some p => Except.ok (w, p)
  | none =>
      if !(checkPlayerOptions o) then Except.error "invalid PlayerOptions"
      else
        match assignedNode w o with
        | none => Except.error "No available nodes."
        | some nd =>
            let w1 := ((w.putPlayer o.guild (ctorFreshPlayer o nd)).emit
              (DomainEvent.playerCreate o.guild))
            let w2 := Player.setVolume w1 o.guild (o.volume.getD 100)
            match Player.setEQ w2 o.guild ctorBands with
            | Except.error e => Except.error e
            | Except.ok w3 =>
                match w3.getPlayer o.guild with
                | some p3 => Except.ok (w3, p3)
                | none => Except.error "unreachable"

theorem getAssoc_setAssoc_self {α : Type} (l : List (String × α)) (k : String) (v : α) :
    getAssoc (setAssoc l k v) k = some v := by
  induction l with
  | nil => simp [setAssoc, getAssoc]
  | cons hd t ih =>
      obtain ⟨k0, v0⟩ := hd
      by_cases hk : k0 = k
      · simp [setAssoc, hk, getAssoc]
      · simp [setAssoc, hk, getAssoc, ih]

theorem getAssoc_setAssoc_ne {α : Type} (l : List (String × α)) (k k2 : String) (v : α)
    (h : k ≠ k2) : getAssoc (setAssoc l k v) k2 = getAssoc l k2 := by
  induction l with
  | nil => simp [setAssoc, getAssoc, h]
  | cons hd t ih =>
      obtain ⟨k0, v0⟩ := hd
      by_cases hk : k0 = k
      · simp [setAssoc, hk, getAssoc, h]
      · simp [setAssoc, hk, getAssoc, ih]

theorem mem_setAssoc {α : Type} (l : List (String × α)) (k : String) (v : α)
    (pr : String × α) (h : pr ∈ setAssoc l k v) : pr = (k, v) ∨ pr ∈ l := by
  induction l with
  | nil => simpa [setAssoc] using h
  | cons hd t ih =>
      obtain ⟨k0, v0⟩ := hd
      by_cases hk : k0 = k
      · rw [setAssoc, if_pos hk] at h
        rcases List.mem_cons.mp h with h1 | h1
        · exact Or.inl h1
        · exact Or.inr (List.mem_cons_of_mem _ h1)
      · rw [setAssoc, if_neg hk] at h
        rcases List.mem_cons.mp h with h1 | h1
        · exact Or.inr (h1 ▸ List.mem_cons_self _ _)
        · rcases ih h1 with h2 | h2
          · exact Or.inl h2
          · exact Or.inr (List.mem_cons_of_mem _ h2)

theorem getAssoc_mem {α : Type} (l : List (String × α)) (k : String) (v : α)
    (h : getAssoc l k = some v) : (k, v) ∈ l := by
  induction l with
  | nil => simp [getAssoc] at h
  | cons hd t ih =>
      obtain ⟨k0, v0⟩ := hd
      by_cases hk : k0 = k
      · rw [getAssoc, if_pos hk] at h
        obtain rfl : v0 = v := by injection h
        exact hk ▸ List.mem_cons_self _ _
      · rw [getAssoc, if_neg hk] at h
        exact List.mem_cons_of_mem _ (ih h)

/-- A repeat-flag call on a Session: `setTrackRepeat` or `setQueueRepeat` with
some flag. -/
inductive RepeatCall where
  | track (flag : Bool)
  | queue (flag : Bool)
deriving DecidableEq

def applyRepeatCall (p : Player) : RepeatCall → Player
  | RepeatCall.track f => p.setTrackRepeat f
  | RepeatCall.queue f => p.setQueueRepeat f

/-- A whole sequence of repeat-flag calls, applied left to right. -/
def applyRepeatCalls (p : Player) (cs : List RepeatCall) : Player :=
  cs.foldl applyRepeatCall p

/-- Claim C5: for every sequence of setTrackRepeat/setQueueRepeat calls, at
most one of trackRepeat and queueRepeat is true after any call; enabling
either flag clears the other; and calling either setter with false clears
both flags. -/
theorem c5_repeat_flags_mutually_exclusive :
    (∀ (p : Player) (cs : List RepeatCall) (c : RepeatCall),
        ((applyRepeatCalls p (cs ++ [c])).trackRepeat
          && (applyRepeatCalls p (cs ++ [c])).queueRepeat) = false)
    ∧ (∀ p : Player,
        (Player.setTrackRepeat p true).trackRepeat = true
        ∧ (Player.setTrackRepeat p true).queueRepeat = false
        ∧ (Player.setQueueRepeat p true).queueRepeat = true
        ∧ (Player.setQueueRepeat p true).trackRepeat = false)
    ∧ (∀ p : Player,
        (Player.setTrackRepeat p false).trackRepeat = false
        ∧ (Player.setTrackRepeat p false).queueRepeat = false
        ∧ (Player.setQueueRepeat p false).trackRepeat = false
        ∧ (Player.setQueueRepeat p false).queueRepeat = false) := by
  refine ⟨?_, ?_, ?_⟩
  · intro p cs c
    rw [applyRepeatCalls, List.foldl_append]
    cases c with
    | track f => cases f <;> rfl
    | queue f => cases f <;> rfl
  · intro p
    exact ⟨rfl, rfl, rfl, rfl⟩
  · intro p
    exact ⟨rfl, rfl, rfl, rfl⟩

/-- Claim C6 (amended): for every numeric count n with 1 < n, `stop n` fails
without mutating the queue or sending anything when n exceeds the queue
length, and otherwise removes exactly n - 1 upcoming entries (leaving
`current` alone) before sending one stop operation. -/
theorem c6_stop_count (w : World) (g : String) (p : Player) (n : Int)
    (hp : w.getPlayer g = some p) :
    (1 < n → (p.queue.pending.length : Int) < n →
        Player.stop w g (some n) =
          Except.error "Cannot skip more than the queue length.")
    ∧ (1 < n → n ≤ (p.queue.pending.length : Int) →
        ∃ w2 p2, Player.stop w g (some n) = Except.ok w2
          ∧ w2.getPlayer g = some p2
          ∧ p2.queue.pending = p.queue.pending.drop (n - 1).toNat
          ∧ p2.queue.pending.length + (n - 1).toNat = p.queue.pending.length
          ∧ p2.queue.current = p.queue.current
          ∧ w2.sent = w.sent ++ [(p.node, Op.stop g)]) := by
  constructor
  · intro h1 h2
    rw [Player.stop, hp]
    simp only [if_pos h1, if_pos h2]
  · intro h1 h2
    have h3 : ¬ ((p.queue.pending.length : Int) < n) := not_lt.mpr h2
    have hstop : Player.stop w g (some n) =
        Except.ok (((w.putPlayer g { p with queue :=
          { p.queue with pending := p.queue.pending.drop (n - 1).toNat } }).send
          p.node (Op.stop g))) := by
      rw [Player.stop, hp]
      simp only [if_pos h1, if_neg h3]
    refine ⟨_, { p with queue :=
      { p.queue with pending := p.queue.pending.drop (n - 1).toNat } },
      hstop, ?_, rfl, ?_, rfl, rfl⟩
    · show (World.getPlayer _ g) = _
      rw [World.getPlayer, World.send, World.putPlayer]
      exact getAssoc_setAssoc_self _ _ _
    · rw [List.length_drop]
      omega

def c6Player : Player :=
  { c1Player with
      guild := "77"
      node := "n2"
      queue :=
        { current := some { track := "tA", title := "a", duration := 10 }
          previous := none
          pending := [{ track := "tB", title := "b", duration := 10 },
                      { track := "tC", title := "c", duration := 10 },
                      { track := "tD", title := "d", duration := 10 }] }
      voiceState := freshVoiceState "77" }

def c6World : World :=
  { clientId := "999",
    players := [("77", c6Player)],
    nodes := [("n2", { identifier := "n2", connected := true, calls := 0, cpu := none })],
    sent := [], gateway := [], events := [] }

theorem c6_stop_count_witness :
    ∃ w2 p2, Player.stop c6World "77" (some 3) = Except.ok w2
      ∧ w2.getPlayer "77" = some p2
      ∧ p2.queue.pending = c6Player.queue.pending.drop ((3 : Int) - 1).toNat
      ∧ p2.queue.pending.length + ((3 : Int) - 1).toNat = c6Player.queue.pending.length
      ∧ p2.queue.current = c6Player.queue.current
      ∧ w2.sent = c6World.sent ++ [(c6Player.node, Op.stop "77")] :=
  (c6_stop_count c6World "77" c6Player 3 rfl).2 (by decide) (by decide)

def c6emptyPlayer : Player :=
  { c1Player with
      guild := "88"
      node := "n3"
      queue :=
        { current := some { track := "tA", title := "a", duration := 10 }
          previous := none
          pending := [] }
      voiceState := freshVoiceState "88" }

def c6emptyWorld : World :=
  { clientId := "999",
    players := [("88", c6emptyPlayer)],
    nodes := [("n3", { identifier := "n3", connected := true, calls := 0, cpu := none })],
    sent := [], gateway := [], events := [] }

/-- Claim C6, counterexample to the original statement: with an empty queue
(length 0), the count n = 1 is greater than the queue length, yet `stop 1`
does not fail - it sends a stop operation - because the length guard of
Player.ts line 344 only runs when the count exceeds 1. -/
theorem c6_stop_one_on_empty_queue_sends :
    c6emptyPlayer.queue.pending.length = 0
    ∧ (0 : Int) < 1
    ∧ Player.stop c6emptyWorld "88" (some 1) =
        Except.ok (c6emptyWorld.send "n3" (Op.stop "88")) :=
  ⟨rfl, by decide, rfl⟩

/-- Claim C7: creating a Session for a guild id that already has one returns
the existing Session and leaves the whole world unchanged: no
re-initialization, no volume or equalizer operation re-sent to its Node. -/
theorem c7_create_existing_returns_unchanged (w : World) (o : PlayerOptions) (p : Player)
    (hp : w.getPlayer o.guild = some p) :
    Manager.create w o = Except.ok (w, p) := by
  rw [Manager.create, hp]

def c7Player : Player :=
  { c1Player with
      guild := "55"
      node := "n4"
      volume := 250
      voiceState := freshVoiceState "55" }

def c7World : World :=
  { clientId := "999",
    players := [("55", c7Player)],
    nodes := [("n4", { identifier := "n4", connected := true, calls := 0, cpu := none })],
    sent := [], gateway := [], events := [] }

def c7Opts : PlayerOptions :=
  { guild := "55", textChannel := none, voiceChannel := none, node := none,
    volume := some 42, selfMute := none, selfDeafen := none }

theorem c7_create_existing_witness :
    Manager.create c7World c7Opts = Except.ok (c7World, c7Player) :=
  c7_create_existing_returns_unchanged c7World c7Opts c7Player rfl

theorem jsArraySet_lt {l : List (Option Rat)} {i : Nat} {v : Rat} (h : i < l.length) :
    jsArraySet l i v = l.set i (some v) := by
  rw [jsArraySet, if_pos h]

theorem jsArraySet_ge {l : List (Option Rat)} {i : Nat} {v : Rat} (h : l.length ≤ i) :
    jsArraySet l i v = l ++ List.replicate (i - l.length) none ++ [some v] := by
  rw [jsArraySet, if_neg (not_lt.mpr h)]

theorem mergeBands_cons (arr : List (Option Rat)) (a : EqualizerBand)
    (t : List EqualizerBand) :
    mergeBands arr (a :: t) = mergeBands (jsArraySet arr a.band a.gain) t := rfl

theorem mergeBands_length {bs : List EqualizerBand} {arr : List (Option Rat)}
    (h : ∀ b ∈ bs, b.band < arr.length) :
    (mergeBands arr bs).length = arr.length := by
  induction bs generalizing arr with
  | nil => rfl
  | cons a t ih =>
      have ha : a.band < arr.length := h a (List.mem_cons_self a t)
      have ht : ∀ b ∈ t, b.band < (arr.set a.band (some a.gain)).length := by
        intro b hb
        rw [List.length_set]
        exact h b (List.mem_cons_of_mem _ hb)
      rw [mergeBands_cons, jsArraySet_lt ha, ih ht, List.length_set]

theorem mergeBands_frame {bs : List EqualizerBand} {arr : List (Option Rat)} {i : Nat}
    (h : ∀ b ∈ bs, b.band < arr.length) (hi : ∀ b ∈ bs, b.band ≠ i) :
    (mergeBands arr bs)[i]? = arr[i]? := by
  induction bs generalizing arr with
  | nil => rfl
  | cons a t ih =>
      have ha : a.band < arr.length := h a (List.mem_cons_self a t)
      have ht : ∀ b ∈ t, b.band < (arr.set a.band (some a.gain)).length := by
        intro b hb
        rw [List.length_set]
        exact h b (List.mem_cons_of_mem _ hb)
      have hit : ∀ b ∈ t, b.band ≠ i := fun b hb => hi b (List.mem_cons_of_mem _ hb)
      rw [mergeBands_cons, jsArraySet_lt ha, ih ht hit,
          List.getElem?_set_ne (hi a (List.mem_cons_self a t))]

theorem mergeBands_written {bs : List EqualizerBand} {arr : List (Option Rat)}
    (h : ∀ b ∈ bs, b.band < arr.length)
    (hnodup : (bs.map EqualizerBand.band).Nodup) :
    ∀ b ∈ bs, (mergeBands arr bs)[b.band]? = some (some b.gain) := by
  induction bs generalizing arr with
  | nil =>
      intro b hb
      cases hb
  | cons a t ih =>
      intro b hb
      have ha : a.band < arr.length := h a (List.mem_cons_self a t)
      have ht : ∀ b2 ∈ t, b2.band < (arr.set a.band (some a.gain)).length := by
        intro b2 hb2
        rw [List.length_set]
        exact h b2 (List.mem_cons_of_mem _ hb2)
      rw [List.map_cons, List.nodup_cons] at hnodup
      rcases List.mem_cons.mp hb with rfl | hbt
      · have hne : ∀ b2 ∈ t, b2.band ≠ b.band := by
          intro b2 hb2 he
          exact hnodup.1 (he ▸ List.mem_map_of_mem EqualizerBand.band hb2)
        rw [mergeBands_cons, jsArraySet_lt ha, mergeBands_frame ht hne,
            List.getElem?_set_eq_of_lt _ ha]
      · rw [mergeBands_cons, jsArraySet_lt ha]
        exact ih ht hnodup.2 b hbt

/-- Claim C4 (amended): setEQ does validate that every band object has
exactly the two fields band and gain, failing the whole call otherwise; but
an out-of-range band index (at or beyond the 15-slot gain array) is NOT a
failure: the gain is written at that index, extending the array past 15
slots, with the original 15 slots untouched. -/
theorem c4_setEQ_validates_fields_but_not_range (w : World) (g : String)
    (p : Player) (bs : List EqualizerBand) (b : EqualizerBand)
    (hp : w.getPlayer g = some p) :
    ((bs.isEmpty || !(bs.all validBand)) = true →
        Player.setEQ w g bs =
          Except.error "Bands must be a non-empty object array containing band and gain properties.")
    ∧ (validBand b = true → p.bands.length ≤ b.band →
        ∃ w2 p2, Player.setEQ w g [b] = Except.ok w2
          ∧ w2.getPlayer g = some p2
          ∧ p2.bands.length = b.band + 1
          ∧ p2.bands[b.band]? = some (some b.gain)
          ∧ ∀ i, i < p.bands.length → p2.bands[i]? = p.bands[i]?) := by
  constructor
  · intro hbad
    simp only [Player.setEQ, hp]
    rw [if_pos hbad]
  · intro hv hge
    have hcond : ¬ (([b].isEmpty || !([b].all validBand)) = true) := by
      simp [hv]
    have hmerge : mergeBands p.bands [b] =
        p.bands ++ List.replicate (b.band - p.bands.length) none ++ [some b.gain] := by
      rw [mergeBands_cons, jsArraySet_ge hge]
      rfl
    have hlen2 : (p.bands ++ List.replicate (b.band - p.bands.length) none).length = b.band := by
      rw [List.length_append, List.length_replicate]
      omega
    have hset : Player.setEQ w g [b] =
        Except.ok (((w.putPlayer g { p with bands := mergeBands p.bands [b] }).send
          p.node (Op.equalizer g (mergeBands p.bands [b]).enum))) := by
      simp only [Player.setEQ, hp]
      rw [if_neg hcond]
    refine ⟨((w.putPlayer g { p with bands := mergeBands p.bands [b] }).send
        p.node (Op.equalizer g (mergeBands p.bands [b]).enum)),
      { p with bands := mergeBands p.bands [b] }, hset, ?_, ?_, ?_, ?_⟩
    · show (World.getPlayer _ g) = _
      rw [World.getPlayer, World.send, World.putPlayer]
      exact getAssoc_setAssoc_self _ _ _
    · show (mergeBands p.bands [b]).length = b.band + 1
      rw [hmerge, List.length_append, List.length_append, List.length_replicate]
      simp only [List.length_singleton]
      omega
    · show (mergeBands p.bands [b])[b.band]? = some (some b.gain)
      rw [hmerge, List.getElem?_append_right (le_of_eq hlen2), hlen2]
      simp
    · intro i hi
      show (mergeBands p.bands [b])[i]? = p.bands[i]?
      rw [hmerge, List.getElem?_append_left (by omega : i < (p.bands ++ List.replicate (b.band - p.bands.length) none).length),
          List.getElem?_append_left hi]

def c4Player : Player :=
  { c1Player with
      guild := "44"
      node := "n5"
      voiceState := freshVoiceState "44" }

def c4World : World :=
  { clientId := "999",
    players := [("44", c4Player)],
    nodes := [("n5", { identifier := "n5", connected := true, calls := 0, cpu := none })],
    sent := [], gateway := [], events := [] }

def c4OutBand : EqualizerBand :=
  { fields := ["band", "gain"], band := 20, gain := gain015 }

/-- Claim C4, counterexample to the original statement: the band index 20 is
outside the 15-slot gain array, yet the setEQ call does not fail - it returns
success, because Player.ts line 140 assigns `this.bands[band] = gain` with no
range check. -/
theorem c4_out_of_range_band_does_not_fail :
    15 ≤ c4OutBand.band
    ∧ c4Player.bands.length = 15
    ∧ ∃ w2, Player.setEQ c4World "44" [c4OutBand] = Except.ok w2 := by
  refine ⟨by decide, rfl, ⟨_, rfl⟩⟩

theorem c4_setEQ_validation_witness :
    (Player.setEQ c4World "44" [] =
      Except.error "Bands must be a non-empty object array containing band and gain properties.")
    ∧ ∃ w2 p2, Player.setEQ c4World "44" [c4OutBand] = Except.ok w2
        ∧ w2.getPlayer "44" = some p2
        ∧ p2.bands.length = c4OutBand.band + 1
        ∧ p2.bands[c4OutBand.band]? = some (some c4OutBand.gain)
        ∧ ∀ i, i < c4Player.bands.length → p2.bands[i]? = c4Player.bands[i]? := by
  have h := c4_setEQ_validates_fields_but_not_range c4World "44" c4Player [] c4OutBand rfl
  exact ⟨h.1 (by decide), h.2 (by decide) (by decide)⟩

/-- Claim C8: for every valid equalizer band update (non-empty, every band
object with exactly the fields band and gain, all indices inside the 15-slot
array, distinct indices), the gain array after setEQ equals the array before
with exactly the specified slots overwritten by their new gains; and clearEQ
always leaves the array as 15 zeros. -/
theorem c8_setEQ_frame_clearEQ_zeros :
    (∀ (w : World) (g : String) (p : Player) (bs : List EqualizerBand),
        w.getPlayer g = some p →
        p.bands.length = 15 →
        bs ≠ [] →
        (∀ b ∈ bs, validBand b = true) →
        (∀ b ∈ bs, b.band < 15) →
        (bs.map EqualizerBand.band).Nodup →
        ∃ w2 p2, Player.setEQ w g bs = Except.ok w2
          ∧ w2.getPlayer g = some p2
          ∧ p2.bands.length = 15
          ∧ (∀ b ∈ bs, p2.bands[b.band]? = some (some b.gain))
          ∧ (∀ i, i < 15 → (∀ b ∈ bs, b.band ≠ i) → p2.bands[i]? = p.bands[i]?))
    ∧ (∀ (w : World) (g : String) (p : Player),
        w.getPlayer g = some p →
        ∃ w2 p2, Player.clearEQ w g = Except.ok w2
          ∧ w2.getPlayer g = some p2
          ∧ p2.bands = List.replicate 15 (some 0)) := by
  constructor
  · intro w g p bs hp hlen hne hv hr hnodup
    have hall : bs.all validBand = true := List.all_eq_true.mpr (fun b hb => hv b hb)
    have hemp : bs.isEmpty = false := by
      cases bs with
      | nil => exact absurd rfl hne
      | cons a t => rfl
    have hcond : ¬ ((bs.isEmpty || !(bs.all validBand)) = true) := by
      rw [hemp, hall]
      decide
    have hr2 : ∀ b ∈ bs, b.band < p.bands.length := by
      intro b hb
      rw [hlen]
      exact hr b hb
    have hset : Player.setEQ w g bs =
        Except.ok (((w.putPlayer g { p with bands := mergeBands p.bands bs }).send
          p.node (Op.equalizer g (mergeBands p.bands bs).enum))) := by
      simp only [Player.setEQ, hp]
      rw [if_neg hcond]
    refine ⟨((w.putPlayer g { p with bands := mergeBands p.bands bs }).send
        p.node (Op.equalizer g (mergeBands p.bands bs).enum)),
      { p with bands := mergeBands p.bands bs }, hset, ?_, ?_, ?_, ?_⟩
    · show (World.getPlayer _ g) = _
      rw [World.getPlayer, World.send, World.putPlayer]
      exact getAssoc_setAssoc_self _ _ _
    · show (mergeBands p.bands bs).length = 15
      rw [mergeBands_length hr2, hlen]
    · intro b hb
      exact mergeBands_written hr2 hnodup b hb
    · intro i hi hib
      exact mergeBands_frame hr2 hib
  · intro w g p hp
    have hset : Player.clearEQ w g =
        Except.ok (((w.putPlayer g { p with bands := List.replicate 15 (some 0) }).send
          p.node (Op.equalizer g (List.replicate 15 (some (0 : Rat))).enum))) := by
      simp only [Player.clearEQ, hp]
    exact ⟨_, { p with bands := List.replicate 15 (some 0) }, hset, by
      show (World.getPlayer _ g) = _
      rw [World.getPlayer, World.send, World.putPlayer]
      exact getAssoc_setAssoc_self _ _ _, rfl⟩

def c8Player : Player :=
  { c1Player with
      guild := "66"
      node := "n6"
      voiceState := freshVoiceState "66" }

def c8World : World :=
  { clientId := "999",
    players := [("66", c8Player)],
    nodes := [("n6", { identifier := "n6", connected := true, calls := 0, cpu := none })],
    sent := [], gateway := [], events := [] }

def c8Band : EqualizerBand :=
  { fields := ["gain", "band"], band := 2, gain := gain015 }

theorem c8_setEQ_frame_witness :
    (∃ w2 p2, Player.setEQ c8World "66" [c8Band] = Except.ok w2
      ∧ w2.getPlayer "66" = some p2
      ∧ p2.bands.length = 15
      ∧ (∀ b ∈ [c8Band], p2.bands[b.band]? = some (some b.gain))
      ∧ (∀ i, i < 15 → (∀ b ∈ [c8Band], b.band ≠ i) → p2.bands[i]? = c8Player.bands[i]?))
    ∧ (∃ w2 p2, Player.clearEQ c8World "66" = Except.ok w2
      ∧ w2.getPlayer "66" = some p2
      ∧ p2.bands = List.replicate 15 (some 0)) :=
  ⟨c8_setEQ_frame_clearEQ_zeros.1 c8World "66" c8Player [c8Band] rfl rfl (by decide)
      (by decide) (by decide) (by decide),
    c8_setEQ_frame_clearEQ_zeros.2 c8World "66" c8Player rfl⟩

theorem setVolume_eq (w : World) (g : String) (p : Player) (vol : Int)
    (hp : w.getPlayer g = some p) :
    Player.setVolume w g vol =
      ((w.putPlayer g { p with volume := max (min vol 1000) 0 }).send p.node
        (Op.volume g (max (min vol 1000) 0))) := by
  rw [Player.setVolume, hp]

theorem setEQ_ok_eq (w : World) (g : String) (p : Player) (bs : List EqualizerBand)
    (hp : w.getPlayer g = some p)
    (hcond : (bs.isEmpty || !(bs.all validBand)) = false) :
    Player.setEQ w g bs =
      Except.ok (((w.putPlayer g { p with bands := mergeBands p.bands bs }).send
        p.node (Op.equalizer g (mergeBands p.bands bs).enum))) := by
  simp only [Player.setEQ, hp]
  rw [if_neg (by rw [hcond]; exact Bool.false_ne_true)]

/-- The volume the constructor stores: `setVolume(options.volume ?? 100)`
after the [0, 1000] clamp. -/
def ctorClampedVolume (o : PlayerOptions) : Int :=
  max (min (o.volume.getD 100) 1000) 0

/-- The Player record after a successful first-time construction. -/
def createdPlayer (o : PlayerOptions) (nd : NodeSt) : Player :=
  { ctorFreshPlayer o nd with
      volume := ctorClampedVolume o
      bands := mergeBands (List.replicate 15 (some 0)) ctorBands }

/-- The World after a successful first-time construction: the fresh Player is
registered, playerCreate is emitted, and the volume operation followed by the
equalizer operation is sent to the assigned node. -/
def createdWorld (w : World) (o : PlayerOptions) (nd : NodeSt) : World :=
  let p0 := ctorFreshPlayer o nd
  let wA := (w.putPlayer o.guild p0).emit (DomainEvent.playerCreate o.guild)
  let p1 := { p0 with volume := ctorClampedVolume o }
  let wB := (wA.putPlayer o.guild p1).send p0.node
    (Op.volume o.guild (ctorClampedVolume o))
  let p2 := { p1 with bands := mergeBands (List.replicate 15 (some 0)) ctorBands }
  (wB.putPlayer o.guild p2).send p1.node
    (Op.equalizer o.guild (mergeBands (List.replicate 15 (some 0)) ctorBands).enum)

theorem create_fresh_eval (w : World) (o : PlayerOptions) (nd : NodeSt)
    (hnone : w.getPlayer o.guild = none)
    (hchk : checkPlayerOptions o = true)
    (hnd : assignedNode w o = some nd) :
    Manager.create w o = Except.ok (createdWorld w o nd, createdPlayer o nd) := by
  have hnot : ¬ ((!(checkPlayerOptions o)) = true) := by
    rw [hchk]
    decide
  have hA : ((w.putPlayer o.guild (ctorFreshPlayer o nd)).emit
      (DomainEvent.playerCreate o.guild)).getPlayer o.guild =
      some (ctorFreshPlayer o nd) :=
    getAssoc_setAssoc_self _ _ _
  have hB := setVolume_eq _ o.guild (ctorFreshPlayer o nd) (o.volume.getD 100) hA
  have hp1 : (((((w.putPlayer o.guild (ctorFreshPlayer o nd)).emit
      (DomainEvent.playerCreate o.guild)).putPlayer o.guild
      { ctorFreshPlayer o nd with volume := max (min (o.volume.getD 100) 1000) 0 }).send
      (ctorFreshPlayer o nd).node
      (Op.volume o.guild (max (min (o.volume.getD 100) 1000) 0))).getPlayer o.guild) =
      some { ctorFreshPlayer o nd with volume := max (min (o.volume.getD 100) 1000) 0 } :=
    getAssoc_setAssoc_self _ _ _
  have hC := setEQ_ok_eq _ o.guild _ ctorBands hp1 (by decide)
  simp only [Manager.create, hnone]
  rw [if_neg hnot]
  simp only [hnd, hB, hC]
  have hD : ((((((w.putPlayer o.guild (ctorFreshPlayer o nd)).emit
      (DomainEvent.playerCreate o.guild)).putPlayer o.guild
      { ctorFreshPlayer o nd with volume := max (min (o.volume.getD 100) 1000) 0 }).send
      (ctorFreshPlayer o nd).node
      (Op.volume o.guild (max (min (o.volume.getD 100) 1000) 0))).putPlayer o.guild
      { { ctorFreshPlayer o nd with volume := max (min (o.volume.getD 100) 1000) 0 } with
          bands := mergeBands { ctorFreshPlayer o nd with
            volume := max (min (o.volume.getD 100) 1000) 0 }.bands ctorBands }).send
      { ctorFreshPlayer o nd with volume := max (min (o.volume.getD 100) 1000) 0 }.node
      (Op.equalizer o.guild (mergeBands { ctorFreshPlayer o nd with
        volume := max (min (o.volume.getD 100) 1000) 0 }.bands ctorBands).enum)).getPlayer
      o.guild =
      some { { ctorFreshPlayer o nd with volume := max (min (o.volume.getD 100) 1000) 0 } with
          bands := mergeBands { ctorFreshPlayer o nd with
            volume := max (min (o.volume.getD 100) 1000) 0 }.bands ctorBands } :=
    getAssoc_setAssoc_self _ _ _
  rw [hD]
  rfl

/-- The gain array produced by the constructor: 0.15 on bands 0-3, 0 on the
remaining 11 slots. -/
def ctorEqArray : List (Option Rat) :=
  [some gain015, some gain015, some gain015, some gain015] ++ List.replicate 11 (some 0)

/-- Claim C9: every successful first-time Session construction sends a volume
operation (the given in-range volume, or the default 100) and then an
equalizer operation to the assigned Node, and the resulting gain array sets
bands 0-3 to 0.15 and the rest to 0 - it is not the flat 15-zero array. -/
theorem c9_ctor_sends_volume_then_equalizer (w : World) (o : PlayerOptions) (nd : NodeSt)
    (hnone : w.getPlayer o.guild = none)
    (hchk : checkPlayerOptions o = true)
    (hnd : assignedNode w o = some nd)
    (hvol : o.volume = none ∨ ∃ v, o.volume = some v ∧ 0 ≤ v ∧ v ≤ 1000) :
    ∃ w3 p3, Manager.create w o = Except.ok (w3, p3)
      ∧ w3.sent = w.sent ++
          [(nd.identifier, Op.volume o.guild (o.volume.getD 100)),
           (nd.identifier, Op.equalizer o.guild ctorEqArray.enum)]
      ∧ p3.bands = ctorEqArray
      ∧ p3.volume = o.volume.getD 100
      ∧ ctorEqArray ≠ List.replicate 15 (some 0) := by
  have hclamp : ctorClampedVolume o = o.volume.getD 100 := by
    rcases hvol with h | ⟨v, hv, h0, h1⟩
    · simp only [ctorClampedVolume, h, Option.getD_none]
      omega
    · simp only [ctorClampedVolume, hv, Option.getD_some]
      omega
  refine ⟨createdWorld w o nd, createdPlayer o nd,
    create_fresh_eval w o nd hnone hchk hnd, ?_, ?_, ?_, by decide⟩
  · have hs : (createdWorld w o nd).sent =
        (w.sent ++ [(nd.identifier, Op.volume o.guild (ctorClampedVolume o))]) ++
          [(nd.identifier, Op.equalizer o.guild ctorEqArray.enum)] := rfl
    rw [hs, hclamp, List.append_assoc]
    rfl
  · rfl
  · exact hclamp

def c9Node : NodeSt := { identifier := "n9", connected := true, calls := 0, cpu := none }

def c9World : World :=
  { clientId := "999", players := [],
    nodes := [("n9", c9Node)],
    sent := [], gateway := [], events := [] }

def c9Opts : PlayerOptions :=
  { guild := "9123", textChannel := none, voiceChannel := none, node := none,
    volume := some 250, selfMute := none, selfDeafen := none }

theorem c9_ctor_witness :
    ∃ w3 p3, Manager.create c9World c9Opts = Except.ok (w3, p3)
      ∧ w3.sent = c9World.sent ++
          [(c9Node.identifier, Op.volume c9Opts.guild (c9Opts.volume.getD 100)),
           (c9Node.identifier, Op.equalizer c9Opts.guild ctorEqArray.enum)]
      ∧ p3.bands = ctorEqArray
      ∧ p3.volume = c9Opts.volume.getD 100
      ∧ ctorEqArray ≠ List.replicate 15 (some 0) :=
  c9_ctor_sends_volume_then_equalizer c9World c9Opts c9Node rfl rfl rfl
    (Or.inr ⟨250, rfl, by decide, by decide⟩)

/-- A play operation addressed to the given guild, in a node transcript. -/
def isPlayFor (g : String) (x : String × Op) : Bool :=
  match x.2 with
  | Op.play g2 _ => g2 == g
  | _ => false

/-- The play operations for a guild in a node transcript. -/
def playOpsFor (g : String) (l : List (String × Op)) : List (String × Op) :=
  l.filter (isPlayFor g)

theorem playOpsFor_append (g : String) (l1 l2 : List (String × Op)) :
    playOpsFor g (l1 ++ l2) = playOpsFor g l1 ++ playOpsFor g l2 := by
  simp [playOpsFor]

theorem playOpsFor_volume (g g2 nid : String) (v : Int) :
    playOpsFor g [(nid, Op.volume g2 v)] = [] := rfl

theorem playOpsFor_equalizer (g g2 nid : String) (bs : List (Nat × Option Rat)) :
    playOpsFor g [(nid, Op.equalizer g2 bs)] = [] := rfl

theorem playOpsFor_play_self (g nid tr : String) :
    playOpsFor g [(nid, Op.play g tr)] = [(nid, Op.play g tr)] := by
  simp [playOpsFor, isPlayFor, List.filter]

theorem connect_eq (w : World) (g : String) (p : Player) (vc : String)
    (hp : w.getPlayer g = some p) (hvc : p.voiceChannel = some vc) :
    Player.connect w g = Except.ok
      { (w.putPlayer g { p with state := "CONNECTED" }) with
          gateway := w.gateway ++ [⟨g, some vc, p.selfMute, p.selfDeafen⟩] } := by
  simp only [Player.connect, hp, hvc]

theorem play_track_eq (w : World) (g : String) (p : Player) (t : Track)
    (hp : w.getPlayer g = some p) :
    Player.play w g (some t) = Except.ok
      (((w.putPlayer g { p with queue :=
        { p.queue with
            previous := if p.queue.current.isSome then p.queue.current
                        else p.queue.previous,
            current := some t } }).send p.node (Op.play g t.track))) := by
  rw [Player.play, hp]

def c3World : World :=
  { clientId := "1", players := [],
    nodes := [("default", { identifier := "default", connected := false, calls := 0, cpu := none })],
    sent := [], gateway := [], events := [] }

def c3Opts : PlayerOptions :=
  { guild := "123", textChannel := none, voiceChannel := some "55", node := none,
    volume := none, selfMute := none, selfDeafen := none }

/-- Claim C3, counterexample to the original statement: with one registered
but unconnected Node (and no node option), creating a Session for guild 123
does not succeed - the Player constructor throws "No available nodes."
(Player.ts line 108) before connect or play can ever run. -/
theorem c3_create_without_connected_node_fails :
    (∀ nd ∈ c3World.nodes, nd.2.connected = false)
    ∧ Manager.create c3World c3Opts = Except.error "No available nodes." :=
  ⟨by decide, rfl⟩

/-- Claim C3 (amended): creating a Session while no Node resolves (no
connected Node and no registered Node named by the options) fails with
"No available nodes." instead of succeeding; when a Node does resolve at
creation time, creation succeeds, connect() then succeeds optimistically
(given a voice channel), and play(track) results in exactly one play
operation for the guild sent to the assigned Node, carrying the guild id. -/
theorem c3_create_connect_play (w : World) (o : PlayerOptions) (nd : NodeSt) (vc : String)
    (hchk : checkPlayerOptions o = true)
    (hnone : w.getPlayer o.guild = none)
    (hvc : o.voiceChannel = some vc) :
    (assignedNode w o = none →
        Manager.create w o = Except.error "No available nodes.")
    ∧ (assignedNode w o = some nd →
        ∃ w1 p1, Manager.create w o = Except.ok (w1, p1)
          ∧ p1.node = nd.identifier
          ∧ ∃ w2, Player.connect w1 o.guild = Except.ok w2
            ∧ ∀ t : Track, ∃ w3, Player.play w2 o.guild (some t) = Except.ok w3
              ∧ playOpsFor o.guild w3.sent =
                  playOpsFor o.guild w.sent ++ [(nd.identifier, Op.play o.guild t.track)]) := by
  have hnot : ¬ ((!(checkPlayerOptions o)) = true) := by
    rw [hchk]
    decide
  constructor
  · intro han
    simp only [Manager.create, hnone]
    rw [if_neg hnot]
    simp only [han]
  · intro hnd2
    refine ⟨createdWorld w o nd, createdPlayer o nd,
      create_fresh_eval w o nd hnone hchk hnd2, rfl, ?_⟩
    have hgp1 : (createdWorld w o nd).getPlayer o.guild = some (createdPlayer o nd) :=
      getAssoc_setAssoc_self _ _ _
    have hpvc : (createdPlayer o nd).voiceChannel = some vc := hvc
    have hconn := connect_eq (createdWorld w o nd) o.guild (createdPlayer o nd) vc hgp1 hpvc
    refine ⟨_, hconn, ?_⟩
    intro t
    have hgp2 : ({ ((createdWorld w o nd).putPlayer o.guild
        { createdPlayer o nd with state := "CONNECTED" }) with
          gateway := (createdWorld w o nd).gateway ++
            [⟨o.guild, some vc, (createdPlayer o nd).selfMute,
              (createdPlayer o nd).selfDeafen⟩] } : World).getPlayer o.guild =
        some { createdPlayer o nd with state := "CONNECTED" } :=
      getAssoc_setAssoc_self _ _ _
    have hplay := play_track_eq _ o.guild _ t hgp2
    refine ⟨_, hplay, ?_⟩
    show playOpsFor o.guild
        (((w.sent ++ [(nd.identifier, Op.volume o.guild (ctorClampedVolume o))]) ++
          [(nd.identifier, Op.equalizer o.guild
            (mergeBands (List.replicate 15 (some 0)) ctorBands).enum)]) ++
          [(nd.identifier, Op.play o.guild t.track)]) =
      playOpsFor o.guild w.sent ++ [(nd.identifier, Op.play o.guild t.track)]
    rw [playOpsFor_append, playOpsFor_append, playOpsFor_append, playOpsFor_volume,
        playOpsFor_equalizer, playOpsFor_play_self]
    simp

def c3Node : NodeSt := { identifier := "n31", connected := true, calls := 0, cpu := none }

def c3ConnWorld : World :=
  { clientId := "1", players := [],
    nodes := [("n31", c3Node)],
    sent := [], gateway := [], events := [] }

theorem c3_create_connect_play_witness :
    ∃ w1 p1, Manager.create c3ConnWorld c3Opts = Except.ok (w1, p1)
      ∧ p1.node = c3Node.identifier
      ∧ ∃ w2, Player.connect w1 c3Opts.guild = Except.ok w2
        ∧ ∀ t : Track, ∃ w3, Player.play w2 c3Opts.guild (some t) = Except.ok w3
          ∧ playOpsFor c3Opts.guild w3.sent =
              playOpsFor c3Opts.guild c3ConnWorld.sent ++
                [(c3Node.identifier, Op.play c3Opts.guild t.track)] :=
  (c3_create_connect_play c3ConnWorld c3Opts c3Node "55" rfl rfl rfl).2 rfl

/-- A merged voice-update operation whose payload carries the given guild id. -/
def isVoiceUpdateFor (g : String) (x : String × Op) : Bool :=
  match x.2 with
  | Op.voiceUpdate vs => vs.guildId == some g
  | _ => false

/-- The merged voice-update operations for a guild in a node transcript. -/
def voiceUpdatesFor (g : String) (l : List (String × Op)) : List (String × Op) :=
  l.filter (isVoiceUpdateFor g)

/-- A whole sequence of gateway voice events, routed through
`Manager#updateVoiceState` in order. -/
def applyVoiceEvents (w : World) (es : List VoiceEvt) : World :=
  es.foldl Manager.updateVoiceState w

/-- Every registered Player carries either no guildId key or its own guild id
in its voiceState.  The Player constructor establishes this (it seeds guildId
with the own guild, Player.ts line 100) and updateVoiceState only ever clears
it. -/
def guildIdInv (w : World) : Prop :=
  ∀ pr ∈ w.players, pr.2.voiceState.guildId = none ∨ pr.2.voiceState.guildId = some pr.1

/-- The Player registered under `g` (if any) has no `op` key in its
voiceState. -/
def opNoneAt (w : World) (g : String) : Prop :=
  ∀ p, w.getPlayer g = some p → p.voiceState.op = none

theorem voiceUpdatesFor_append_not (g : String) (l : List (String × Op))
    (x : String × Op) (hx : isVoiceUpdateFor g x = false) :
    voiceUpdatesFor g (l ++ [x]) = voiceUpdatesFor g l := by
  simp [voiceUpdatesFor, List.filter_append, List.filter, hx]

theorem guildIdInv_putPlayer {w : World} {g2 : String} {p : Player}
    (hInv : guildIdInv w)
    (hp : p.voiceState.guildId = none ∨ p.voiceState.guildId = some g2) :
    guildIdInv (w.putPlayer g2 p) := by
  intro pr hpr
  rcases mem_setAssoc w.players g2 p pr hpr with h | h
  · rw [h]
    exact hp
  · exact hInv pr h

theorem opNoneAt_putPlayer_self {w : World} {g : String} {p : Player}
    (hp : p.voiceState.op = none) : opNoneAt (w.putPlayer g p) g := by
  intro p2 hp2
  simp only [World.getPlayer, World.putPlayer] at hp2
  rw [getAssoc_setAssoc_self] at hp2
  injection hp2 with h2
  rw [← h2]
  exact hp

theorem opNoneAt_putPlayer_other {w : World} {g g2 : String} {p : Player}
    (h : g2 ≠ g) (hOp : opNoneAt w g) : opNoneAt (w.putPlayer g2 p) g := by
  intro p2 hp2
  apply hOp
  simp only [World.getPlayer, World.putPlayer] at hp2
  rw [getAssoc_setAssoc_ne _ _ _ _ h] at hp2
  exact hp2

/-- `Player#pause` either leaves the world alone (already in the requested
state, or empty queue) or flips the flags and sends one pause operation. -/
theorem pause_cases (w : World) (g : String) (p : Player) (b : Bool)
    (hp : w.getPlayer g = some p) :
    Player.pause w g b = w ∨
    Player.pause w g b =
      (w.putPlayer g { p with playing := !b, paused := b }).send p.node (Op.pause g b) := by
  simp only [Player.pause, hp]
  split
  · exact Or.inl rfl
  · exact Or.inr rfl

theorem guildIdInv_of_players_eq {w1 w2 : World} (h : w2.players = w1.players)
    (hInv : guildIdInv w1) : guildIdInv w2 := by
  intro pr hpr
  rw [h] at hpr
  exact hInv pr hpr

theorem opNoneAt_of_players_eq {w1 w2 : World} {g : String} (h : w2.players = w1.players)
    (hOp : opNoneAt w1 g) : opNoneAt w2 g := by
  intro p hp
  apply hOp
  rw [World.getPlayer] at hp ⊢
  rw [← h]
  exact hp

theorem dispatchIfComplete_players (w : World) (g : String) :
    (dispatchIfComplete w g).players = w.players := by
  rw [dispatchIfComplete]
  rcases hq : w.getPlayer g with _ | p2
  · simp only [hq]
  · simp only [hq]
    split <;> rfl

theorem dispatchIfComplete_voiceUpdatesFor (w : World) (g2 g : String)
    (h : ∀ p2, w.getPlayer g2 = some p2 → requiredKeysPresent p2.voiceState = true →
        isVoiceUpdateFor g (p2.node, Op.voiceUpdate p2.voiceState) = false) :
    voiceUpdatesFor g (dispatchIfComplete w g2).sent = voiceUpdatesFor g w.sent := by
  rw [dispatchIfComplete]
  rcases hq : w.getPlayer g2 with _ | p2
  · simp only [hq]
  · simp only [hq]
    split
    · next hreq => exact voiceUpdatesFor_append_not g w.sent _ (h p2 hq hreq)
    · rfl

theorem pause_voiceUpdatesFor (wb : World) (gb : String) (b : Bool) (g : String) :
    voiceUpdatesFor g (Player.pause wb gb b).sent = voiceUpdatesFor g wb.sent := by
  rw [Player.pause]
  rcases hq : wb.getPlayer gb with _ | q
  · simp only [hq]
  · simp only [hq]
    split
    · rfl
    · exact voiceUpdatesFor_append_not g wb.sent _ rfl

theorem pause_guildIdInv (wb : World) (gb : String) (b : Bool)
    (hInv : guildIdInv wb) : guildIdInv (Player.pause wb gb b) := by
  rw [Player.pause]
  rcases hq : wb.getPlayer gb with _ | q
  · simp only [hq]
    exact hInv
  · simp only [hq]
    split
    · exact hInv
    · have hmem : (gb, q) ∈ wb.players := getAssoc_mem _ _ _ hq
      exact guildIdInv_of_players_eq rfl (guildIdInv_putPlayer hInv (hInv (gb, q) hmem))

theorem pause_opNoneAt (wb : World) (gb g : String) (b : Bool)
    (hOp : opNoneAt wb g) : opNoneAt (Player.pause wb gb b) g := by
  rw [Player.pause]
  rcases hq : wb.getPlayer gb with _ | q
  · simp only [hq]
    exact hOp
  · simp only [hq]
    split
    · exact hOp
    · by_cases hg : gb = g
      · subst hg
        exact opNoneAt_of_players_eq rfl (opNoneAt_putPlayer_self (hOp q hq))
      · exact opNoneAt_of_players_eq rfl (opNoneAt_putPlayer_other hg hOp)

theorem pause_getPlayer_voiceState (wb : World) (gb : String) (b : Bool) (q : Player)
    (hq : wb.getPlayer gb = some q) :
    ∀ p2, (Player.pause wb gb b).getPlayer gb = some p2 → p2.voiceState = q.voiceState := by
  intro p2 hp2
  simp only [Player.pause, hq] at hp2
  split at hp2
  · rw [hq] at hp2
    injection hp2 with h
    rw [← h]
  · simp only [World.getPlayer, World.send, World.putPlayer] at hp2
    rw [getAssoc_setAssoc_self] at hp2
    injection hp2 with h
    rw [← h]

/-- The Player record after a voice-state fragment with a channel id
(Manager.ts lines 447-448): sessionId stored, voice channel updated. -/
def stateUpdatedPlayer (p : Player) (sid c : String) : Player :=
  { p with
      voiceState := { p.voiceState with sessionId := some sid }
      voiceChannel := some c }

/-- The Player record after an external disconnect (Manager.ts lines
450-452): voice channel cleared and voiceState reset to the empty record. -/
def resetPlayer (p : Player) : Player :=
  { p with
      voiceChannel := none
      voiceState := emptyVoiceState }

theorem updateVoiceState_step (w : World) (e : VoiceEvt) (g : String)
    (hInv : guildIdInv w) (hOp : opNoneAt w g) :
    voiceUpdatesFor g (Manager.updateVoiceState w e).sent = voiceUpdatesFor g w.sent
    ∧ guildIdInv (Manager.updateVoiceState w e)
    ∧ opNoneAt (Manager.updateVoiceState w e) g := by
  cases e with
  | server g2 token endpoint =>
      rcases hpg : w.getPlayer g2 with _ | p
      · simp only [Manager.updateVoiceState, hpg]
        exact ⟨by trivial, hInv, hOp⟩
      · simp only [Manager.updateVoiceState, hpg]
        have hmem : (g2, p) ∈ w.players := getAssoc_mem _ _ _ hpg
        refine ⟨by trivial,
          guildIdInv_of_players_eq rfl (guildIdInv_putPlayer hInv (hInv (g2, p) hmem)), ?_⟩
        by_cases hg : g2 = g
        · subst hg
          exact opNoneAt_of_players_eq rfl (opNoneAt_putPlayer_self (hOp p hpg))
        · exact opNoneAt_of_players_eq rfl (opNoneAt_putPlayer_other hg hOp)
  | state g2 uid sid cid =>
      rcases hpg : w.getPlayer g2 with _ | p
      · simp only [Manager.updateVoiceState, hpg]
        exact ⟨by trivial, hInv, hOp⟩
      · by_cases huid : uid ≠ w.clientId
        · simp only [Manager.updateVoiceState, hpg]
          rw [if_pos huid]
          exact ⟨by trivial, hInv, hOp⟩
        · cases cid with
          | some c =>
              simp only [Manager.updateVoiceState, hpg]
              rw [if_neg huid]
              have hmem : (g2, p) ∈ w.players := getAssoc_mem _ _ _ hpg
              have hgid := hInv (g2, p) hmem
              have hpl : (if p.voiceChannel ≠ some c then
                  w.emit (DomainEvent.playerMove g2 p.voiceChannel c) else w).players =
                  w.players := by
                rw [apply_ite World.players]
                simp [World.emit]
              have hsent : (if p.voiceChannel ≠ some c then
                  w.emit (DomainEvent.playerMove g2 p.voiceChannel c) else w).sent =
                  w.sent := by
                rw [apply_ite World.sent]
                simp [World.emit]
              have hgp : (((if p.voiceChannel ≠ some c then
                    w.emit (DomainEvent.playerMove g2 p.voiceChannel c) else w).putPlayer g2
                  (stateUpdatedPlayer p sid c)).getPlayer g2) =
                  some (stateUpdatedPlayer p sid c) :=
                getAssoc_setAssoc_self _ _ _
              have hgidP1 : (stateUpdatedPlayer p sid c).voiceState.guildId = none ∨
                  (stateUpdatedPlayer p sid c).voiceState.guildId = some g2 := hgid
              have hprem : ∀ p2,
                  (((if p.voiceChannel ≠ some c then
                      w.emit (DomainEvent.playerMove g2 p.voiceChannel c) else w).putPlayer g2
                    (stateUpdatedPlayer p sid c)).getPlayer g2) = some p2 →
                  requiredKeysPresent p2.voiceState = true →
                  isVoiceUpdateFor g (p2.node, Op.voiceUpdate p2.voiceState) = false := by
                intro p2 hp2 hreq
                rw [hgp] at hp2
                injection hp2 with h2
                subst h2
                by_cases hg : g2 = g
                · subst hg
                  have hop := hOp p hpg
                  rw [requiredKeysPresent] at hreq
                  simp [stateUpdatedPlayer, hop] at hreq
                · rcases hgidP1 with hnone | hsome
                  · rw [requiredKeysPresent] at hreq
                    simp [hnone] at hreq
                  · simp only [isVoiceUpdateFor]
                    rw [hsome]
                    rw [beq_eq_false_iff_ne]
                    intro hh
                    exact hg (Option.some.inj hh)
              refine ⟨?_, ?_, ?_⟩
              · refine (dispatchIfComplete_voiceUpdatesFor
                  ((if p.voiceChannel ≠ some c then
                      w.emit (DomainEvent.playerMove g2 p.voiceChannel c) else w).putPlayer g2
                    (stateUpdatedPlayer p sid c)) g2 g hprem).trans ?_
                show voiceUpdatesFor g (if p.voiceChannel ≠ some c then
                    w.emit (DomainEvent.playerMove g2 p.voiceChannel c) else w).sent =
                  voiceUpdatesFor g w.sent
                rw [hsent]
              · exact guildIdInv_of_players_eq (dispatchIfComplete_players _ _)
                  (guildIdInv_of_players_eq rfl
                    (guildIdInv_putPlayer (guildIdInv_of_players_eq hpl hInv) hgidP1))
              · by_cases hg : g2 = g
                · subst hg
                  have hopP1 : (stateUpdatedPlayer p sid c).voiceState.op = none :=
                    hOp p hpg
                  exact opNoneAt_of_players_eq (dispatchIfComplete_players _ _)
                    (opNoneAt_of_players_eq rfl (opNoneAt_putPlayer_self hopP1))
                · exact opNoneAt_of_players_eq (dispatchIfComplete_players _ _)
                    (opNoneAt_of_players_eq rfl
                      (opNoneAt_putPlayer_other hg (opNoneAt_of_players_eq hpl hOp)))
          | none =>
              simp only [Manager.updateVoiceState, hpg]
              rw [if_neg huid]
              have hq1 : ((w.emit (DomainEvent.playerDisconnect g2 p.voiceChannel)).putPlayer g2
                  (resetPlayer p)).getPlayer g2 = some (resetPlayer p) :=
                getAssoc_setAssoc_self _ _ _
              have hgidPreset : (resetPlayer p).voiceState.guildId = none ∨
                  (resetPlayer p).voiceState.guildId = some g2 := Or.inl rfl
              have hInv1 : guildIdInv
                  ((w.emit (DomainEvent.playerDisconnect g2 p.voiceChannel)).putPlayer g2
                    (resetPlayer p)) :=
                guildIdInv_of_players_eq rfl (guildIdInv_putPlayer hInv hgidPreset)
              have hOp1 : opNoneAt
                  ((w.emit (DomainEvent.playerDisconnect g2 p.voiceChannel)).putPlayer g2
                    (resetPlayer p)) g := by
                by_cases hg : g2 = g
                · subst hg
                  have hopPreset : (resetPlayer p).voiceState.op = none := rfl
                  exact opNoneAt_of_players_eq rfl (opNoneAt_putPlayer_self hopPreset)
                · exact opNoneAt_of_players_eq rfl (opNoneAt_putPlayer_other hg hOp)
              have hprem : ∀ p2,
                  (Player.pause
                    ((w.emit (DomainEvent.playerDisconnect g2 p.voiceChannel)).putPlayer g2
                      (resetPlayer p)) g2 true).getPlayer g2 = some p2 →
                  requiredKeysPresent p2.voiceState = true →
                  isVoiceUpdateFor g (p2.node, Op.voiceUpdate p2.voiceState) = false := by
                intro p2 hp2 hreq
                have hv := pause_getPlayer_voiceState
                  ((w.emit (DomainEvent.playerDisconnect g2 p.voiceChannel)).putPlayer g2
                    (resetPlayer p)) g2 true (resetPlayer p) hq1 p2 hp2
                rw [hv] at hreq
                have hfalse : requiredKeysPresent (resetPlayer p).voiceState = false := rfl
                rw [hfalse] at hreq
                exact (Bool.false_ne_true hreq).elim
              refine ⟨?_, ?_, ?_⟩
              · exact (dispatchIfComplete_voiceUpdatesFor
                  (Player.pause
                    ((w.emit (DomainEvent.playerDisconnect g2 p.voiceChannel)).putPlayer g2
                      (resetPlayer p)) g2 true) g2 g hprem).trans
                  (pause_voiceUpdatesFor
                    ((w.emit (DomainEvent.playerDisconnect g2 p.voiceChannel)).putPlayer g2
                      (resetPlayer p)) g2 true g)
              · exact guildIdInv_of_players_eq (dispatchIfComplete_players _ _)
                  (pause_guildIdInv _ g2 true hInv1)
              · exact opNoneAt_of_players_eq (dispatchIfComplete_players _ _)
                  (pause_opNoneAt _ g2 g true hOp1)

theorem pause_getPlayer_exists (wb : World) (gb : String) (b : Bool) (q : Player)
    (hq : wb.getPlayer gb = some q) :
    ∃ q2, (Player.pause wb gb b).getPlayer gb = some q2 ∧ q2.voiceState = q.voiceState := by
  rcases pause_cases wb gb q b hq with hpc | hpc <;> rw [hpc]
  · exact ⟨q, hq, rfl⟩
  · refine ⟨{ q with playing := !b, paused := b }, ?_, rfl⟩
    exact getAssoc_setAssoc_self _ _ _

theorem applyVoiceEvents_voiceUpdatesFor (es : List VoiceEvt) (w : World) (g : String)
    (hInv : guildIdInv w) (hOp : opNoneAt w g) :
    voiceUpdatesFor g (applyVoiceEvents w es).sent = voiceUpdatesFor g w.sent
    ∧ guildIdInv (applyVoiceEvents w es) ∧ opNoneAt (applyVoiceEvents w es) g := by
  induction es generalizing w with
  | nil => exact ⟨rfl, hInv, hOp⟩
  | cons e t ih =>
      obtain ⟨h1, h2, h3⟩ := updateVoiceState_step w e g hInv hOp
      obtain ⟨g1, g2i, g3⟩ := ih (Manager.updateVoiceState w e) h2 h3
      exact ⟨g1.trans h1, g2i, g3⟩

theorem disconnect_event_resets (w : World) (g sid : String) (p : Player)
    (hInv : guildIdInv w) (hpg : w.getPlayer g = some p) :
    (∃ p2, (Manager.updateVoiceState w
        (VoiceEvt.state g w.clientId sid none)).getPlayer g = some p2
        ∧ p2.voiceState = emptyVoiceState)
    ∧ voiceUpdatesFor g (Manager.updateVoiceState w
        (VoiceEvt.state g w.clientId sid none)).sent = voiceUpdatesFor g w.sent
    ∧ guildIdInv (Manager.updateVoiceState w (VoiceEvt.state g w.clientId sid none))
    ∧ opNoneAt (Manager.updateVoiceState w (VoiceEvt.state g w.clientId sid none)) g := by
  have huid : ¬ (w.clientId ≠ w.clientId) := fun h => h rfl
  simp only [Manager.updateVoiceState, hpg]
  rw [if_neg huid]
  have hq1 : ((w.emit (DomainEvent.playerDisconnect g p.voiceChannel)).putPlayer g
      (resetPlayer p)).getPlayer g = some (resetPlayer p) :=
    getAssoc_setAssoc_self _ _ _
  have hgidPreset : (resetPlayer p).voiceState.guildId = none ∨
      (resetPlayer p).voiceState.guildId = some g := Or.inl rfl
  have hInv1 : guildIdInv
      ((w.emit (DomainEvent.playerDisconnect g p.voiceChannel)).putPlayer g
        (resetPlayer p)) :=
    guildIdInv_of_players_eq rfl (guildIdInv_putPlayer hInv hgidPreset)
  have hopPreset : (resetPlayer p).voiceState.op = none := rfl
  have hOp1 : opNoneAt
      ((w.emit (DomainEvent.playerDisconnect g p.voiceChannel)).putPlayer g
        (resetPlayer p)) g :=
    opNoneAt_of_players_eq rfl (opNoneAt_putPlayer_self hopPreset)
  have hprem : ∀ p2,
      (Player.pause
        ((w.emit (DomainEvent.playerDisconnect g p.voiceChannel)).putPlayer g
          (resetPlayer p)) g true).getPlayer g = some p2 →
      requiredKeysPresent p2.voiceState = true →
      isVoiceUpdateFor g (p2.node, Op.voiceUpdate p2.voiceState) = false := by
    intro p2 hp2 hreq
    have hv := pause_getPlayer_voiceState
      ((w.emit (DomainEvent.playerDisconnect g p.voiceChannel)).putPlayer g
        (resetPlayer p)) g true (resetPlayer p) hq1 p2 hp2
    rw [hv] at hreq
    have hfalse : requiredKeysPresent (resetPlayer p).voiceState = false := rfl
    rw [hfalse] at hreq
    exact (Bool.false_ne_true hreq).elim
  refine ⟨?_, ?_, ?_, ?_⟩
  · obtain ⟨q2, hq2, hvs⟩ := pause_getPlayer_exists
      ((w.emit (DomainEvent.playerDisconnect g p.voiceChannel)).putPlayer g
        (resetPlayer p)) g true (resetPlayer p) hq1
    refine ⟨q2, ?_, hvs.trans rfl⟩
    have hpe : (dispatchIfComplete (Player.pause
        ((w.emit (DomainEvent.playerDisconnect g p.voiceChannel)).putPlayer g
          (resetPlayer p)) g true) g).getPlayer g =
        (Player.pause
          ((w.emit (DomainEvent.playerDisconnect g p.voiceChannel)).putPlayer g
            (resetPlayer p)) g true).getPlayer g := by
      rw [World.getPlayer, World.getPlayer, dispatchIfComplete_players]
    exact hpe.trans hq2
  · exact (dispatchIfComplete_voiceUpdatesFor
      (Player.pause
        ((w.emit (DomainEvent.playerDisconnect g p.voiceChannel)).putPlayer g
          (resetPlayer p)) g true) g g hprem).trans
      (pause_voiceUpdatesFor
        ((w.emit (DomainEvent.playerDisconnect g p.voiceChannel)).putPlayer g
          (resetPlayer p)) g true g)
  · exact guildIdInv_of_players_eq (dispatchIfComplete_players _ _)
      (pause_guildIdInv _ g true hInv1)
  · exact opNoneAt_of_players_eq (dispatchIfComplete_players _ _)
      (pause_opNoneAt _ g g true hOp1)

/-- Claim C10: after updateVoiceState processes a voice-state fragment with a
null channel id (external disconnect) for an existing Session, that
Session's voiceState is reset to the empty record - no op or guildId key -
and from then on no sequence of voice fragments delivered through
updateVoiceState ever yields a merged voice-update dispatch carrying that
Session's guild id: the REQUIRED_KEYS check can never pass again, because
nothing after the Player constructor ever re-adds the op or guildId keys.
The hypothesis `guildIdInv` records what the constructor guarantees: every
registered Session's voiceState carries either no guildId key or its own
guild id. -/
theorem c10_disconnect_kills_merge (w : World) (g sid : String) (p : Player)
    (hInv : guildIdInv w) (hp : w.getPlayer g = some p) :
    (∃ p2, (Manager.updateVoiceState w
        (VoiceEvt.state g w.clientId sid none)).getPlayer g = some p2
        ∧ p2.voiceState = emptyVoiceState)
    ∧ ∀ es : List VoiceEvt,
        voiceUpdatesFor g (applyVoiceEvents
          (Manager.updateVoiceState w (VoiceEvt.state g w.clientId sid none)) es).sent =
        voiceUpdatesFor g w.sent := by
  obtain ⟨hex, hsent, hInv1, hOp1⟩ := disconnect_event_resets w g sid p hInv hp
  exact ⟨hex, fun es =>
    ((applyVoiceEvents_voiceUpdatesFor es _ g hInv1 hOp1).1).trans hsent⟩

def c10Player : Player :=
  { c1Player with
      guild := "123"
      node := "n10"
      voiceChannel := some "55"
      voiceState :=
        { op := some "voiceUpdate"
          guildId := some "123"
          event := some ⟨"123", "tok", "endp"⟩
          sessionId := some "s1" } }

def c10World : World :=
  { clientId := "999",
    players := [("123", c10Player)],
    nodes := [("n10", { identifier := "n10", connected := true, calls := 0, cpu := none })],
    sent := [], gateway := [], events := [] }

theorem c10_disconnect_witness :
    (∃ p2, (Manager.updateVoiceState c10World
        (VoiceEvt.state "123" c10World.clientId "s2" none)).getPlayer "123" = some p2
        ∧ p2.voiceState = emptyVoiceState)
    ∧ voiceUpdatesFor "123"
        (applyVoiceEvents (Manager.updateVoiceState c10World
          (VoiceEvt.state "123" c10World.clientId "s2" none))
          [VoiceEvt.server "123" "t2" "e2",
           VoiceEvt.state "123" "999" "s3" (some "55")]).sent =
      voiceUpdatesFor "123" c10World.sent := by
  have h := c10_disconnect_kills_merge c10World "123" "s2" c10Player (by unfold guildIdInv; decide) rfl
  exact ⟨h.1, h.2 [VoiceEvt.server "123" "t2" "e2",
    VoiceEvt.state "123" "999" "s3" (some "55")]⟩
